import Mathlib

/-!
Verification of `tools/testrunner/local/variants.py` (V8 test-variant
configuration) and of the flag-compatibility resolution engine specified
around it.  The Python module is pure data: a variant → flag-sets table,
three incompatibility rule tables, a slow/fast classification, the sort key
`_variant_order_key`, the sorted `ALL_VARIANTS` list, and a module-level
validation loop.  Python `dict`s keep insertion order, so the tables are
embedded as association lists in source order; Python `sorted` is a stable
ascending sort by key, embedded here as a stable insertion sort.
-/

/-- The variant table: each variant name maps to its list of flag-set
alternatives, in the source's insertion order (`ALL_VARIANT_FLAGS`). -/
def ALL_VARIANT_FLAGS : List (String × List (List String)) := [
  ("assert_types", [["--assert-types"]]),
  ("code_serializer", [["--cache=code"]]),
  ("default", [[]]),
  ("future", [["--future"]]),
  ("gc_stats", [["--gc-stats=1"]]),
  ("infra_staging", [[]]),
  ("interpreted_regexp", [["--regexp-interpret-all"]]),
  ("experimental_regexp", [["--default-to-experimental-regexp-engine"]]),
  ("jitless", [["--jitless"]]),
  ("minor_mc", [["--minor-mc"]]),
  ("nci", [["--turbo-nci"]]),
  ("nci_as_midtier", [["--turbo-nci-as-midtier"]]),
  ("no_lfa", [["--no-lazy-feedback-allocation"]]),
  ("no_local_heaps", [[
      "--no-local-heaps",
      "--no-turbo-direct-heap-access",
      "--no-finalize-streaming-on-background"]]),
  ("nooptimization", [["--no-opt", "--liftoff", "--no-wasm-tier-up",
                       "--wasm-generic-wrapper"]]),
  ("slow_path", [["--force-slow-path"]]),
  ("stress", [["--stress-opt", "--no-liftoff", "--stress-lazy-source-positions"]]),
  ("stress_concurrent_allocation", [["--stress-concurrent-allocation"]]),
  ("stress_js_bg_compile_wasm_code_gc", [["--stress-background-compile",
                                          "--finalize-streaming-on-background",
                                          "--stress-wasm-code-gc"]]),
  ("stress_incremental_marking", [["--stress-incremental-marking"]]),
  ("stress_snapshot", [["--stress-snapshot"]]),
  ("stress_sampling", [["--stress-sampling-allocation-profiler=16384"]]),
  ("trusted", [["--no-untrusted-code-mitigations"]]),
  ("no_wasm_traps", [["--no-wasm-trap-handler"]]),
  ("turboprop", [["--turboprop"]]),
  ("instruction_scheduling", [["--turbo-instruction-scheduling"]]),
  ("stress_instruction_scheduling", [["--turbo-stress-instruction-scheduling"]]),
  ("top_level_await", [["--harmony-top-level-await"]])]

/-- Table `INCOMPATIBLE_FLAGS_PER_VARIANT`: flag patterns contradicting each
variant's own flags, in source order. -/
def INCOMPATIBLE_FLAGS_PER_VARIANT : List (String × List String) := [
  ("assert_types", ["--no-assert-types"]),
  ("jitless", ["--opt", "--always-opt", "--liftoff", "--track-field-types",
               "--validate-asm"]),
  ("no_wasm_traps", ["--wasm-trap-handler"]),
  ("nooptimization", ["--opt", "--always-opt", "--no-liftoff", "--predictable",
                      "--wasm-tier-up"]),
  ("slow_path", ["--no-force-slow-path"]),
  ("stress_concurrent_allocation", ["--single-threaded-gc", "--predictable"]),
  ("stress_incremental_marking", ["--no-stress-incremental-marking"]),
  ("future", ["--parallel-compile-tasks"]),
  ("stress_js_bg_compile_wasm_code_gc", ["--no-stress-background-compile",
                                         "--parallel-compile-tasks"]),
  ("stress", ["--no-stress-opt", "--always-opt", "--no-always-opt", "--liftoff",
              "--max-inlined-bytecode-size=*",
              "--max-inlined-bytecode-size-cumulative=*", "--stress-inline"]),
  ("turboprop", ["--interrupt-budget=*", "--no-turboprop"]),
  ("code_serializer", ["--cache=after-execute", "--cache=full-code-cache",
                       "--cache=none"]),
  ("no_local_heaps", ["--concurrent-inlining"]),
  ("experimental_regexp", ["--no-enable-experimental-regexp-engine",
                           "--no-default-to-experimental-regexp-engine"])]

/-- Table `INCOMPATIBLE_FLAGS_PER_BUILD_VARIABLE`: the `lite_mode` entry reuses the
`jitless` per-variant list by value, exactly as the Python source appends
`INCOMPATIBLE_FLAGS_PER_VARIANT["jitless"]`. -/
def INCOMPATIBLE_FLAGS_PER_BUILD_VARIABLE : List (String × List String) := [
  ("lite_mode", ["--no-lazy-feedback-allocation", "--max-semi-space-size=*"]
                ++ (INCOMPATIBLE_FLAGS_PER_VARIANT.lookup "jitless").getD []),
  ("predictable", ["--liftoff", "--parallel-compile-tasks",
                   "--concurrent-recompilation",
                   "--wasm-num-compilation-tasks=*",
                   "--stress-concurrent-allocation"])]

/-- Table `INCOMPATIBLE_FLAGS_PER_EXTRA_FLAG`: the `--stress-incremental-marking`
entry reuses the `stress_incremental_marking` per-variant list by value, as
in the Python source. -/
def INCOMPATIBLE_FLAGS_PER_EXTRA_FLAG : List (String × List String) := [
  ("--concurrent-recompilation", ["--no-concurrent-recompilation",
                                  "--predictable"]),
  ("--enable-armv8", ["--no-enable-armv8"]),
  ("--gc-interval=*", ["--gc-interval=*"]),
  ("--no-enable-sse3", ["--enable-sse3"]),
  ("--no-enable-sse4-1", ["--enable-sse4-1"]),
  ("--optimize-for-size", ["--max-semi-space-size=*"]),
  ("--stress_concurrent_allocation", ["--single-threaded-gc", "--predictable"]),
  ("--stress-flush-bytecode", ["--no-stress-flush-bytecode"]),
  ("--stress-incremental-marking",
   (INCOMPATIBLE_FLAGS_PER_VARIANT.lookup "stress_incremental_marking").getD [])]

/-- Set `SLOW_VARIANTS` (a Python set; only membership is ever used). -/
def SLOW_VARIANTS : List String := ["stress", "stress_snapshot", "nooptimization"]

/-- Set `FAST_VARIANTS`. -/
def FAST_VARIANTS : List String := ["default"]

/-- Key function `_variant_order_key` generalised over the two classification sets; the
source consults the slow set first, then the fast set. -/
def variantOrderKeyWith (slow fast : List String) (v : String) : Nat :=
  if v ∈ slow then 0
  else if v ∈ fast then 100
  else 50

/-- Key function `_variant_order_key` from the source: 0 for slow variants, 100 for fast
variants, 50 otherwise. -/
def _variant_order_key (v : String) : Nat :=
  variantOrderKeyWith SLOW_VARIANTS FAST_VARIANTS v

/-- Stable insertion of one name into a list already ordered by
`_variant_order_key`: the new name goes before the first element of strictly
larger key, hence after every earlier-inserted element of equal key. -/
def insertVariant (x : String) : List String → List String
  | [] => [x]
  | y :: ys =>
    if _variant_order_key y < _variant_order_key x then y :: insertVariant x ys
    else x :: y :: ys

/-- Ordering query `orderVariants`: Python's `sorted(names, key=_variant_order_key)` — a
stable ascending sort by the priority-class key, embedded as a stable
insertion sort (an element is inserted before strictly-larger keys only,
so the relative order of equal-key elements is the input order). -/
def orderVariants : List String → List String
  | [] => []
  | x :: xs => insertVariant x (orderVariants xs)

/-- The source's `ALL_VARIANTS = sorted(ALL_VARIANT_FLAGS.keys(), key=_variant_order_key)`. -/
def ALL_VARIANTS : List String :=
  orderVariants (ALL_VARIANT_FLAGS.map Prod.fst)

/-- Modelled from the spec: flag-pattern matching for the compatibility
engine, which is absent from the source file (the source holds only the
tables; §4.1 of the spec defines the matching).  A wildcard pattern
`--name=*` matches any flag with the `--name=` prefix and also the bare
`--name`; a non-wildcard pattern matches only the identical string. -/
def flagsMatch (pattern flag : String) : Bool :=
  let p := pattern.data
  if p.drop (p.length - 2) == ['=', '*'] then
    flag.data.take (p.length - 1) == p.take (p.length - 1)
    || flag.data == p.take (p.length - 2)
  else flag.data == p

/-- The flags a variant actually injects: all alternatives joined (every
variant in the observed table has exactly one alternative). -/
def variantBaseFlags (variantName : String) : List String :=
  ((ALL_VARIANT_FLAGS.lookup variantName).getD []).flatten

/-- Exclusion patterns applying directly: the per-variant rule set of the
active variant plus the rule sets of every active build variable. -/
def collectDirect (variantName : String) (buildVariables : List String) :
    List String :=
  (INCOMPATIBLE_FLAGS_PER_VARIANT.lookup variantName).getD []
  ++ buildVariables.flatMap
      (fun b => (INCOMPATIBLE_FLAGS_PER_BUILD_VARIABLE.lookup b).getD [])

/-- Modelled from the spec: `isCompatible(variantName, buildVariables,
extraFlags)` of the CompatibilityResolver (§4.1), absent from the source
file.  Candidate flags are the variant's base flags plus the extra flags;
they are tested against the merged per-variant and per-build-variable
exclusion sets.  An extra-flag rule is activated by any extra flag matching
its source key treated as a flag pattern, and its exclusions are tested
against the remaining candidates with that one activating occurrence
removed — the spec's required reading, so that a self-referential wildcard
rule such as `--gc-interval=*` → `--gc-interval=*` forbids a second
occurrence of the flag yet accepts a single one. -/
def isCompatible (variantName : String) (buildVariables : List String)
    (extraFlags : List String) : Bool :=
  let candidates := variantBaseFlags variantName ++ extraFlags
  let direct := collectDirect variantName buildVariables
  let directConflict := candidates.any (fun f => direct.any (fun p => flagsMatch p f))
  let extraConflict := INCOMPATIBLE_FLAGS_PER_EXTRA_FLAG.any (fun kp =>
    extraFlags.any (fun f => flagsMatch kp.1 f
      && (candidates.erase f).any (fun g => kp.2.any (fun p => flagsMatch p g))))
  !(directConflict || extraConflict)

/-- Modelled from the spec: the fatal configuration error raised at
resolver construction (§7), carrying the offending variant name; the source
file itself only has a bare module-level `assert` loop. -/
structure ConfigurationError where
  offending : String
deriving DecidableEq

/-- Modelled from the spec: the CompatibilityResolver, owning the variant
table and the priority classification (§2); the resolver object itself is
not present in the source file. -/
structure Resolver where
  variantTable : List (String × List (List String))
  slow : List String
  fast : List String

/-- First name of a classification that is missing from the table keys. -/
def findMissing (keys classification : List String) : Option String :=
  classification.find? (fun v => !(keys.contains v))

/-- Modelled from the spec: resolver construction validates that every name
in the slow and fast classifications exists in the variant table, failing
with a `ConfigurationError` naming the offender (§4.1, §7); the source file
only has the module-level loop `assert v in ALL_VARIANT_FLAGS`. -/
def mkResolver (table : List (String × List (List String)))
    (slow fast : List String) : Except ConfigurationError Resolver :=
  match findMissing (table.map Prod.fst) slow with
  | some v => .error ⟨v⟩
  | none =>
    match findMissing (table.map Prod.fst) fast with
    | some v => .error ⟨v⟩
    | none => .ok ⟨table, slow, fast⟩

/-- Number of candidate flags matching a pattern. -/
def countMatching (pattern : String) (flags : List String) : Nat :=
  flags.countP (fun f => flagsMatch pattern f)

theorem insertVariant_perm (x : String) :
    ∀ l : List String, List.Perm (insertVariant x l) (x :: l)
  | [] => List.Perm.refl _
  | y :: ys => by
    unfold insertVariant
    by_cases h : _variant_order_key y < _variant_order_key x
    · rw [if_pos h]
      exact ((insertVariant_perm x ys).cons y).trans (List.Perm.swap x y ys)
    · rw [if_neg h]

theorem orderVariants_perm : ∀ l : List String, List.Perm (orderVariants l) l
  | [] => List.Perm.refl _
  | x :: xs =>
    (insertVariant_perm x (orderVariants xs)).trans ((orderVariants_perm xs).cons x)

theorem mem_insertVariant {z x : String} {l : List String} :
    z ∈ insertVariant x l ↔ z = x ∨ z ∈ l :=
  (insertVariant_perm x l).mem_iff.trans List.mem_cons

theorem pairwise_insertVariant (x : String) : ∀ {l : List String},
    l.Pairwise (fun a b => _variant_order_key a ≤ _variant_order_key b) →
    (insertVariant x l).Pairwise (fun a b => _variant_order_key a ≤ _variant_order_key b)
  | [], _ => List.pairwise_singleton _ x
  | y :: ys, h => by
    rcases List.pairwise_cons.mp h with ⟨h1, h2⟩
    unfold insertVariant
    by_cases hlt : _variant_order_key y < _variant_order_key x
    · rw [if_pos hlt]
      refine List.pairwise_cons.mpr ⟨?_, pairwise_insertVariant x h2⟩
      intro b hb
      rcases mem_insertVariant.mp hb with hb | hb
      · exact hb ▸ Nat.le_of_lt hlt
      · exact h1 b hb
    · rw [if_neg hlt]
      refine List.pairwise_cons.mpr ⟨?_, h⟩
      intro b hb
      rcases List.mem_cons.mp hb with hb | hb
      · exact hb ▸ Nat.le_of_not_lt hlt
      · exact Nat.le_trans (Nat.le_of_not_lt hlt) (h1 b hb)

theorem orderVariants_pairwise : ∀ l : List String,
    (orderVariants l).Pairwise (fun a b => _variant_order_key a ≤ _variant_order_key b)
  | [] => List.Pairwise.nil
  | x :: xs => pairwise_insertVariant x (orderVariants_pairwise xs)

theorem filter_insertVariant (x : String) (k : Nat) : ∀ l : List String,
    (insertVariant x l).filter (fun v => _variant_order_key v == k)
      = if _variant_order_key x = k
        then x :: l.filter (fun v => _variant_order_key v == k)
        else l.filter (fun v => _variant_order_key v == k)
  | [] => by
    by_cases hx : _variant_order_key x = k
    · simp [insertVariant, hx]
    · simp [insertVariant, hx]
  | y :: ys => by
    unfold insertVariant
    by_cases hlt : _variant_order_key y < _variant_order_key x
    · rw [if_pos hlt]
      by_cases hx : _variant_order_key x = k
      · have hy : ¬ _variant_order_key y = k := by omega
        simp [List.filter_cons, hx, hy, filter_insertVariant x k ys]
      · simp [List.filter_cons, hx, filter_insertVariant x k ys]
    · rw [if_neg hlt]
      by_cases hx : _variant_order_key x = k
      · simp [List.filter_cons, hx]
      · simp [List.filter_cons, hx]

theorem orderVariants_filter : ∀ (l : List String) (k : Nat),
    (orderVariants l).filter (fun v => _variant_order_key v == k)
      = l.filter (fun v => _variant_order_key v == k)
  | [], _ => rfl
  | x :: xs, k => by
    show (insertVariant x (orderVariants xs)).filter _ = _
    rw [filter_insertVariant x k (orderVariants xs)]
    by_cases hx : _variant_order_key x = k
    · simp [List.filter_cons, hx, orderVariants_filter xs k]
    · simp [List.filter_cons, hx, orderVariants_filter xs k]

theorem key_of_slow {v : String} (h : v ∈ SLOW_VARIANTS) : _variant_order_key v = 0 := by
  simp [_variant_order_key, variantOrderKeyWith, h]

theorem key_of_fast {v : String} (h : v ∈ FAST_VARIANTS) : _variant_order_key v = 100 := by
  have hv : v = "default" := by simpa [FAST_VARIANTS] using h
  subst hv
  decide

theorem key_of_middle {v : String} (h1 : ¬ v ∈ SLOW_VARIANTS) (h2 : ¬ v ∈ FAST_VARIANTS) :
    _variant_order_key v = 50 := by
  simp [_variant_order_key, variantOrderKeyWith, h1, h2]


/-- C1: `orderVariants` (the stable sort by `_variant_order_key`, as used to
build `ALL_VARIANTS`) places every slow-classified name before every
fast-classified name, places unclassified names between the two groups, and
preserves the relative input order within each priority class (the filter by
key class is unchanged). -/
theorem orderVariants_priority_stable (l : List String) :
    (∀ i j : Fin (orderVariants l).length,
        (orderVariants l).get i ∈ SLOW_VARIANTS →
        (orderVariants l).get j ∈ FAST_VARIANTS → (i : Nat) < (j : Nat))
    ∧ (∀ i j : Fin (orderVariants l).length,
        (orderVariants l).get i ∈ SLOW_VARIANTS →
        ¬ (orderVariants l).get j ∈ SLOW_VARIANTS →
        ¬ (orderVariants l).get j ∈ FAST_VARIANTS → (i : Nat) < (j : Nat))
    ∧ (∀ i j : Fin (orderVariants l).length,
        ¬ (orderVariants l).get i ∈ SLOW_VARIANTS →
        ¬ (orderVariants l).get i ∈ FAST_VARIANTS →
        (orderVariants l).get j ∈ FAST_VARIANTS → (i : Nat) < (j : Nat))
    ∧ ∀ k : Nat,
        (orderVariants l).filter (fun v => _variant_order_key v == k)
          = l.filter (fun v => _variant_order_key v == k) := by
  have hget := List.pairwise_iff_get.mp (orderVariants_pairwise l)
  refine ⟨?_, ?_, ?_, orderVariants_filter l⟩
  · intro i j hi hj
    by_contra hij
    rcases Nat.lt_or_eq_of_le (Nat.le_of_not_lt hij) with hlt | heq
    · have hord := hget j i hlt
      rw [key_of_slow hi, key_of_fast hj] at hord
      omega
    · have hJI : j = i := Fin.ext heq
      rw [hJI] at hj
      have hd : (orderVariants l).get i = "default" := by
        simpa [FAST_VARIANTS] using hj
      rw [hd] at hi
      exact absurd hi (by decide)
  · intro i j hi hj1 hj2
    by_contra hij
    rcases Nat.lt_or_eq_of_le (Nat.le_of_not_lt hij) with hlt | heq
    · have hord := hget j i hlt
      rw [key_of_slow hi, key_of_middle hj1 hj2] at hord
      omega
    · have hJI : j = i := Fin.ext heq
      rw [hJI] at hj1
      exact hj1 hi
  · intro i j hi1 hi2 hj
    by_contra hij
    rcases Nat.lt_or_eq_of_le (Nat.le_of_not_lt hij) with hlt | heq
    · have hord := hget j i hlt
      rw [key_of_fast hj, key_of_middle hi1 hi2] at hord
      omega
    · have hJI : j = i := Fin.ext heq
      rw [hJI] at hj
      exact hi2 hj

/-- Witness for C1 at the concrete input `["default", "future", "stress"]`:
the slow name `"stress"` ends up at index 0, the fast name `"default"` at
index 2, and the theorem yields `0 < 2`. -/
theorem orderVariants_priority_stable_witness :
    ((orderVariants ["default", "future", "stress"]).get ⟨0, by decide⟩ ∈ SLOW_VARIANTS)
    ∧ ((orderVariants ["default", "future", "stress"]).get ⟨2, by decide⟩ ∈ FAST_VARIANTS)
    ∧ (0 : Nat) < 2 :=
  ⟨by decide, by decide,
   (orderVariants_priority_stable ["default", "future", "stress"]).1
     ⟨0, by decide⟩ ⟨2, by decide⟩ (by decide) (by decide)⟩

/-- C10: ordering drops, duplicates and invents nothing — `orderVariants`
returns a permutation of its input for every input; in particular
`ALL_VARIANTS` is a permutation of the keys of `ALL_VARIANT_FLAGS`, and both
lists hold each name exactly once. -/
theorem orderVariants_permutation :
    (∀ l : List String, List.Perm (orderVariants l) l)
    ∧ List.Perm ALL_VARIANTS (ALL_VARIANT_FLAGS.map Prod.fst)
    ∧ (ALL_VARIANT_FLAGS.map Prod.fst).Nodup
    ∧ ALL_VARIANTS.Nodup :=
  ⟨orderVariants_perm, orderVariants_perm (ALL_VARIANT_FLAGS.map Prod.fst),
   by decide, by decide⟩

/-- C9: the slow and fast priority classes are disjoint in the data, and the
ordering key resolves any hypothetical overlap in favor of the slow class,
since the slow set is consulted before the fast set. -/
theorem slow_fast_disjoint_slow_wins :
    (∀ v, v ∈ SLOW_VARIANTS → ¬ v ∈ FAST_VARIANTS ∧ _variant_order_key v = 0)
    ∧ ∀ (slow fast : List String) (v : String), v ∈ slow →
        variantOrderKeyWith slow fast v = 0 := by
  constructor
  · intro v hv
    simp only [SLOW_VARIANTS, List.mem_cons, List.not_mem_nil, or_false] at hv
    rcases hv with h | h | h <;> subst h <;> exact ⟨by decide, by decide⟩
  · intro slow fast v hv
    simp [variantOrderKeyWith, hv]

/-- Witness for C9: applied at `"stress"` for the data, and at the
overlapping classification `slow = fast = ["x"]` the key is still 0. -/
theorem slow_fast_disjoint_slow_wins_witness :
    ("stress" ∈ SLOW_VARIANTS
      ∧ ¬ "stress" ∈ FAST_VARIANTS ∧ _variant_order_key "stress" = 0)
    ∧ ("x" ∈ ["x"] ∧ variantOrderKeyWith ["x"] ["x"] "x" = 0) :=
  ⟨⟨by decide, slow_fast_disjoint_slow_wins.1 "stress" (by decide)⟩,
   ⟨by decide, slow_fast_disjoint_slow_wins.2 ["x"] ["x"] "x" (by decide)⟩⟩

/-- C8: in the observed table every variant has exactly one flag-set
alternative (while the table's type `List (String × List (List String))`
permits several per variant). -/
theorem all_variant_flags_single_alternative :
    ∀ kv ∈ ALL_VARIANT_FLAGS, kv.2.length = 1 := by decide

/-- Witness for C8 at the `"default"` entry. -/
theorem all_variant_flags_single_alternative_witness :
    (("default", [([] : List String)]) ∈ ALL_VARIANT_FLAGS)
    ∧ (("default", [([] : List String)]) : String × List (List String)).2.length = 1 :=
  ⟨by decide, all_variant_flags_single_alternative ("default", [[]]) (by decide)⟩

/-- C7: rule tables share pattern sets by value — the extra-flag rule set of
`"--stress-incremental-marking"` equals the per-variant rule set of
`"stress_incremental_marking"`, and the build-variable rule set of
`"lite_mode"` is its own two patterns followed by the per-variant rule set of
`"jitless"` (so the latter is a suffix of it). -/
theorem rule_table_value_sharing :
    (INCOMPATIBLE_FLAGS_PER_EXTRA_FLAG.lookup "--stress-incremental-marking").getD []
      = (INCOMPATIBLE_FLAGS_PER_VARIANT.lookup "stress_incremental_marking").getD []
    ∧ (INCOMPATIBLE_FLAGS_PER_BUILD_VARIABLE.lookup "lite_mode").getD []
        = ["--no-lazy-feedback-allocation", "--max-semi-space-size=*"]
          ++ (INCOMPATIBLE_FLAGS_PER_VARIANT.lookup "jitless").getD []
    ∧ (INCOMPATIBLE_FLAGS_PER_VARIANT.lookup "jitless").getD []
        <:+ (INCOMPATIBLE_FLAGS_PER_BUILD_VARIABLE.lookup "lite_mode").getD [] :=
  ⟨by decide, by decide,
   ⟨["--no-lazy-feedback-allocation", "--max-semi-space-size=*"], by decide⟩⟩

/-- C2: resolver construction fails with a `ConfigurationError` naming an
offending variant whenever a priority classification contains a name absent
from the variant table; no resolver is produced, so no query can run. -/
theorem resolver_rejects_unknown_classification
    (table : List (String × List (List String))) (slow fast : List String)
    (v : String) (hv : v ∈ slow ++ fast) (hmiss : ¬ v ∈ table.map Prod.fst) :
    ∃ e : ConfigurationError,
      mkResolver table slow fast = Except.error e
      ∧ e.offending ∈ slow ++ fast
      ∧ ¬ e.offending ∈ table.map Prod.fst := by
  have hkeys : ∀ (w : String) (l : List String),
      findMissing (table.map Prod.fst) l = some w →
      w ∈ l ∧ ¬ w ∈ table.map Prod.fst := by
    intro w l h
    unfold findMissing at h
    refine ⟨List.mem_of_find?_eq_some h, ?_⟩
    have hp := List.find?_some h
    simpa using hp
  have hnone : ∀ l : List String,
      findMissing (table.map Prod.fst) l = none →
      ∀ x ∈ l, x ∈ table.map Prod.fst := by
    intro l h x hx
    unfold findMissing at h
    have hq := List.find?_eq_none.mp h x hx
    simpa using hq
  cases hs : findMissing (table.map Prod.fst) slow with
  | some w =>
    rcases hkeys w slow hs with ⟨hw1, hw2⟩
    exact ⟨⟨w⟩, by simp [mkResolver, hs], List.mem_append.mpr (Or.inl hw1), hw2⟩
  | none =>
    have hvfast : v ∈ fast := by
      rcases List.mem_append.mp hv with h | h
      · exact absurd (hnone slow hs v h) hmiss
      · exact h
    cases hf : findMissing (table.map Prod.fst) fast with
    | some w =>
      rcases hkeys w fast hf with ⟨hw1, hw2⟩
      exact ⟨⟨w⟩, by simp [mkResolver, hs, hf], List.mem_append.mpr (Or.inr hw1), hw2⟩
    | none => exact absurd (hnone fast hf v hvfast) hmiss

/-- Witness for C2: a slow classification containing
`"nonexistent_variant"`, which the variant table does not define, makes
construction fail with a `ConfigurationError`. -/
theorem resolver_rejects_unknown_classification_witness :
    ("nonexistent_variant" ∈ ("nonexistent_variant" :: SLOW_VARIANTS) ++ FAST_VARIANTS)
    ∧ (¬ "nonexistent_variant" ∈ ALL_VARIANT_FLAGS.map Prod.fst)
    ∧ ∃ e : ConfigurationError,
        mkResolver ALL_VARIANT_FLAGS ("nonexistent_variant" :: SLOW_VARIANTS) FAST_VARIANTS
          = Except.error e
        ∧ e.offending ∈ ("nonexistent_variant" :: SLOW_VARIANTS) ++ FAST_VARIANTS
        ∧ ¬ e.offending ∈ ALL_VARIANT_FLAGS.map Prod.fst :=
  ⟨by decide, by decide,
   resolver_rejects_unknown_classification ALL_VARIANT_FLAGS
     ("nonexistent_variant" :: SLOW_VARIANTS) FAST_VARIANTS
     "nonexistent_variant" (by decide) (by decide)⟩

/-- C4: `"jitless"` injects exactly `["--jitless"]`, the `"lite_mode"`
build-variable rule set contains every exclusion registered for
`"jitless"`, and `isCompatible("jitless", {"lite_mode"}, ["--opt"])` is
false — `--opt` is excluded under both source keys. -/
theorem jitless_lite_mode_scenario :
    variantBaseFlags "jitless" = ["--jitless"]
    ∧ (∀ p, p ∈ (INCOMPATIBLE_FLAGS_PER_VARIANT.lookup "jitless").getD []
        → p ∈ (INCOMPATIBLE_FLAGS_PER_BUILD_VARIABLE.lookup "lite_mode").getD [])
    ∧ isCompatible "jitless" ["lite_mode"] ["--opt"] = false :=
  ⟨by decide, by decide, by decide⟩

/-- Witness for C4 at the exclusion pattern `"--opt"`. -/
theorem jitless_lite_mode_scenario_witness :
    ("--opt" ∈ (INCOMPATIBLE_FLAGS_PER_VARIANT.lookup "jitless").getD [])
    ∧ ("--opt" ∈ (INCOMPATIBLE_FLAGS_PER_BUILD_VARIABLE.lookup "lite_mode").getD []) :=
  ⟨by decide, jitless_lite_mode_scenario.2.1 "--opt" (by decide)⟩

/-- A pattern passes the wildcard test of `flagsMatch` exactly when it is
some name followed by `=*`. -/
theorem wildcard_check_iff (pattern : String) :
    (pattern.data.drop (pattern.data.length - 2) == ['=', '*']) = true
      ↔ ∃ name : String, pattern = name ++ "=*" := by
  constructor
  · intro h
    have hd : pattern.data.drop (pattern.data.length - 2) = ['=', '*'] := by
      simpa using h
    refine ⟨String.mk (pattern.data.take (pattern.data.length - 2)), ?_⟩
    apply String.ext
    rw [String.data_append]
    show pattern.data = pattern.data.take (pattern.data.length - 2) ++ "=*".data
    have hsuf : "=*".data = ['=', '*'] := rfl
    rw [hsuf, ← hd, List.take_append_drop]
  · rintro ⟨name, rfl⟩
    have hdata : (name ++ "=*").data = name.data ++ ['=', '*'] := rfl
    rw [hdata]
    have hn : (name.data ++ ['=', '*']).length - 2 = name.data.length := by
      simp
    rw [hn, List.drop_left]
    exact beq_self_eq_true _

/-- A pattern whose wildcard test is false is not of the form `name ++ "=*"`. -/
theorem nonWildcard_of_check {pattern : String}
    (h : (pattern.data.drop (pattern.data.length - 2) == ['=', '*']) = false) :
    ¬ ∃ name : String, pattern = name ++ "=*" := by
  intro hex
  rw [(wildcard_check_iff pattern).mpr hex] at h
  cases h

/-- C5: `flagsMatch` semantics — a bare (non-wildcard) pattern matches a
candidate flag exactly when the strings are equal; a wildcard pattern
`name ++ "=*"` matches exactly the flags carrying the `name ++ "="` prefix
(any value) and the bare `name` itself. -/
theorem flagsMatch_semantics (pattern flag : String) :
    ((¬ ∃ name : String, pattern = name ++ "=*") →
      (flagsMatch pattern flag = true ↔ pattern = flag))
    ∧ ∀ name : String, pattern = name ++ "=*" →
        (flagsMatch pattern flag = true ↔
          ((name ++ "=").data <+: flag.data ∨ flag = name)) := by
  constructor
  · intro hnw
    have hc : (pattern.data.drop (pattern.data.length - 2) == ['=', '*']) = false := by
      cases h : (pattern.data.drop (pattern.data.length - 2) == ['=', '*']) with
      | false => rfl
      | true => exact absurd ((wildcard_check_iff pattern).mp h) hnw
    simp only [flagsMatch, hc, Bool.false_eq_true, if_false, beq_iff_eq]
    constructor
    · intro h
      exact (String.ext h).symm
    · rintro rfl
      rfl
  · rintro name rfl
    have hdata : (name ++ "=*").data = name.data ++ ['=', '*'] := rfl
    have hn1 : (name.data ++ ['=', '*']).length - 1 = name.data.length + 1 := by
      simp
    have hn2 : (name.data ++ ['=', '*']).length - 2 = name.data.length := by
      simp
    have hdropP : List.drop name.data.length (name.data ++ ['=', '*']) = ['=', '*'] :=
      List.drop_left name.data ['=', '*']
    have htake1 : (name.data ++ ['=', '*']).take (name.data.length + 1)
        = name.data ++ ['='] := by
      have h2 : name.data ++ ['=', '*'] = (name.data ++ ['=']) ++ ['*'] := by
        rw [List.append_assoc]
        rfl
      rw [h2]
      exact List.take_left' (by simp)
    have htake2 : (name.data ++ ['=', '*']).take name.data.length = name.data :=
      List.take_left name.data ['=', '*']
    have heqdata : (name ++ "=").data = name.data ++ ['='] := rfl
    simp only [flagsMatch, hdata, hn1, hn2, hdropP, eq_self_iff_true, if_true,
      htake1, htake2, Bool.or_eq_true, beq_iff_eq]
    constructor
    · rintro (h | h)
      · left
        rw [List.prefix_iff_eq_take, heqdata]
        have hl : (name.data ++ ['=']).length = name.data.length + 1 := by simp
        rw [hl]
        exact h.symm
      · right
        exact String.ext h
    · rintro (h | h)
      · left
        have hpre := List.prefix_iff_eq_take.mp h
        rw [heqdata] at hpre
        have hl : (name.data ++ ['=']).length = name.data.length + 1 := by simp
        rw [hl] at hpre
        exact hpre.symm
      · right
        rw [h]

/-- Witness for C5: a bare pattern matched against itself, and a wildcard
pattern from the data matched against a concrete valued flag. -/
theorem flagsMatch_semantics_witness :
    (flagsMatch "--opt" "--opt" = true ↔ "--opt" = "--opt")
    ∧ (flagsMatch "--max-semi-space-size=*" "--max-semi-space-size=2" = true ↔
        (("--max-semi-space-size" ++ "=").data <+: "--max-semi-space-size=2".data
          ∨ "--max-semi-space-size=2" = "--max-semi-space-size")) :=
  ⟨(flagsMatch_semantics "--opt" "--opt").1 (nonWildcard_of_check (by decide)),
   (flagsMatch_semantics "--max-semi-space-size=*" "--max-semi-space-size=2").2
     "--max-semi-space-size" (by decide)⟩

/-- C6: when no registered rule's source key is active — the variant keys no
per-variant rule, no build variable keys a build-variable rule, and no extra
flag activates an extra-flag rule's source key — `isCompatible` reports true
whatever flags are present. -/
theorem no_active_rule_compatible (variantName : String)
    (buildVariables extraFlags : List String)
    (h1 : INCOMPATIBLE_FLAGS_PER_VARIANT.lookup variantName = none)
    (h2 : ∀ b ∈ buildVariables, INCOMPATIBLE_FLAGS_PER_BUILD_VARIABLE.lookup b = none)
    (h3 : ∀ f ∈ extraFlags, ∀ kp ∈ INCOMPATIBLE_FLAGS_PER_EXTRA_FLAG,
        flagsMatch kp.1 f = false) :
    isCompatible variantName buildVariables extraFlags = true := by
  have hdirect : collectDirect variantName buildVariables = [] := by
    unfold collectDirect
    rw [h1]
    simp only [Option.getD_none, List.nil_append]
    rw [List.flatMap_eq_nil_iff]
    intro b hb
    rw [h2 b hb]
    rfl
  have hB : INCOMPATIBLE_FLAGS_PER_EXTRA_FLAG.any (fun kp =>
      extraFlags.any (fun f => flagsMatch kp.1 f
        && ((variantBaseFlags variantName ++ extraFlags).erase f).any
            (fun g => kp.2.any (fun p => flagsMatch p g)))) = false := by
    rw [List.any_eq_false]
    intro kp hkp
    simp only [List.any_eq_true, not_exists, not_and]
    intro f hf
    rw [h3 f hf kp hkp]
    simp
  simp only [isCompatible, hdirect, List.any_nil, hB]
  simp

/-- Witness for C6: a variant, build variable and extra flag none of which
keys or activates any rule. -/
theorem no_active_rule_compatible_witness :
    (INCOMPATIBLE_FLAGS_PER_VARIANT.lookup "infra_staging" = none)
    ∧ (∀ b ∈ ["some_build_var"], INCOMPATIBLE_FLAGS_PER_BUILD_VARIABLE.lookup b = none)
    ∧ (∀ f ∈ ["--some-unruled-flag"], ∀ kp ∈ INCOMPATIBLE_FLAGS_PER_EXTRA_FLAG,
        flagsMatch kp.1 f = false)
    ∧ isCompatible "infra_staging" ["some_build_var"] ["--some-unruled-flag"] = true :=
  ⟨rfl, by decide, by decide,
   no_active_rule_compatible "infra_staging" ["some_build_var"] ["--some-unruled-flag"]
     rfl (by decide) (by decide)⟩

/-- A successful association-list lookup exhibits a stored pair. -/
theorem lookup_mem {β : Type} {l : List (String × β)} {k : String} {v : β}
    (h : l.lookup k = some v) : (k, v) ∈ l := by
  obtain ⟨l1, l2, rfl, -⟩ := List.lookup_eq_some_iff.mp h
  exact List.mem_append.mpr (Or.inr (List.mem_cons_self _ _))

/-- No variant's base flags contain a flag matching `--gc-interval=*`. -/
theorem base_no_gc_interval (v : String) :
    countMatching "--gc-interval=*" (variantBaseFlags v) = 0 := by
  unfold variantBaseFlags
  cases h : ALL_VARIANT_FLAGS.lookup v with
  | none => rfl
  | some alts =>
    have hall : ∀ kv ∈ ALL_VARIANT_FLAGS,
        countMatching "--gc-interval=*" kv.2.flatten = 0 := by decide
    simpa using hall (v, alts) (lookup_mem h)

/-- C3: the data registers the wildcard pattern `--gc-interval=*` as excluded
under the source key `--gc-interval=*` itself; consequently `isCompatible`
reports incompatible whenever the flag occurs twice across the variant base
flags and extra flags combined, and a single occurrence alone is compatible. -/
theorem gc_interval_self_conflict :
    INCOMPATIBLE_FLAGS_PER_EXTRA_FLAG.lookup "--gc-interval=*"
      = some ["--gc-interval=*"]
    ∧ (∀ (variantName : String) (buildVariables extraFlags : List String),
        2 ≤ countMatching "--gc-interval=*" (variantBaseFlags variantName ++ extraFlags) →
        isCompatible variantName buildVariables extraFlags = false)
    ∧ isCompatible "default" [] ["--gc-interval=1"] = true := by
  refine ⟨rfl, ?_, by decide⟩
  intro variantName buildVariables extraFlags hcount
  have hextras : 2 ≤ countMatching "--gc-interval=*" extraFlags := by
    have hbase := base_no_gc_interval variantName
    unfold countMatching at hcount hbase ⊢
    rw [List.countP_append] at hcount
    omega
  have hpos : 0 < List.countP (fun f => flagsMatch "--gc-interval=*" f) extraFlags := by
    unfold countMatching at hextras
    omega
  obtain ⟨f, hf, hmatch⟩ := List.countP_pos_iff.mp hpos
  have hfc : f ∈ variantBaseFlags variantName ++ extraFlags :=
    List.mem_append.mpr (Or.inr hf)
  have hpos2 : 0 < List.countP (fun f => flagsMatch "--gc-interval=*" f)
      ((variantBaseFlags variantName ++ extraFlags).erase f) := by
    have hpcnt := (List.perm_cons_erase hfc).countP_eq
      (fun f => flagsMatch "--gc-interval=*" f)
    rw [List.countP_cons] at hpcnt
    simp only [hmatch, if_true] at hpcnt
    unfold countMatching at hcount
    omega
  obtain ⟨g, hgmem, hgmatch⟩ := List.countP_pos_iff.mp hpos2
  have hB : INCOMPATIBLE_FLAGS_PER_EXTRA_FLAG.any (fun kp =>
      extraFlags.any (fun f2 => flagsMatch kp.1 f2
        && ((variantBaseFlags variantName ++ extraFlags).erase f2).any
            (fun g2 => kp.2.any (fun p2 => flagsMatch p2 g2)))) = true := by
    rw [List.any_eq_true]
    refine ⟨("--gc-interval=*", ["--gc-interval=*"]), by decide, ?_⟩
    rw [List.any_eq_true]
    refine ⟨f, hf, ?_⟩
    rw [Bool.and_eq_true]
    refine ⟨hmatch, ?_⟩
    rw [List.any_eq_true]
    exact ⟨g, hgmem, by simp [hgmatch]⟩
  simp only [isCompatible, hB]
  simp

/-- Witness for C3: duplicate occurrences of `--gc-interval` (as the two
extra flags `--gc-interval=1` and `--gc-interval=2`) are rejected. -/
theorem gc_interval_self_conflict_witness :
    2 ≤ countMatching "--gc-interval=*"
        (variantBaseFlags "default" ++ ["--gc-interval=1", "--gc-interval=2"])
    ∧ isCompatible "default" [] ["--gc-interval=1", "--gc-interval=2"] = false :=
  ⟨by decide,
   gc_interval_self_conflict.2.1 "default" [] ["--gc-interval=1", "--gc-interval=2"]
     (by decide)⟩





